import Mathlib

/-!
Shallow embedding of the Music Assistant server core (provider lifecycle,
sync scheduler, event bus, library database setup, filesystem sync) used to
check the natural-language specification against the source.

Sources embedded:
- music_assistant/server/server.py (MusicAssistant: signal_event, subscribe,
  create_task, load_provider, unload_provider, _load_providers)
- music_assistant/server/controllers/music.py (MusicController:
  _start_provider_sync, start_sync, _setup_database)
- music_assistant/server/providers/filesystem_local/base.py
  (FileSystemProviderBase.sync_library, _process_deletions)
- music_assistant/server/models/provider.py (Provider base class)
- music_assistant/common/models/provider.py (ProviderManifest, SyncTask)

Modelling conventions: async control flow is sequentialised (the server runs
on one cooperative event loop); log statements, payload data of events and
the aiohttp/zeroconf plumbing are elided; Python dicts become association
lists with dict update semantics; exceptions become explicit `Option`
error results threaded through the call chain.
-/

namespace MusicAssistant

/-- MediaType enum (music_assistant.common.models.enums), restricted to the
five library media kinds used by the sync engine. -/
inductive MediaType
  | artist
  | album
  | track
  | playlist
  | radio
  deriving DecidableEq, Repr

/-- MediaType.ALL constant: the tuple of all five media types. -/
def MediaType.all : List MediaType :=
  [MediaType.artist, MediaType.album, MediaType.track, MediaType.playlist, MediaType.radio]

/-- EventType enum, restricted to the events signalled by the embedded code
(providers updated, sync tasks updated, shutdown). -/
inductive EventType
  | providers_updated
  | sync_tasks_updated
  | shutdown
  deriving DecidableEq, Repr

/-- ProviderType enum. -/
inductive ProviderType
  | music
  | metadata
  | player
  | plugin
  deriving DecidableEq, Repr

/-- SyncTask (common/models/provider.py): ephemeral record of one in-flight
synchronization job.  The asyncio.Task handle is modelled by a numeric id. -/
structure SyncTask where
  provider_domain : String
  provider_instance : String
  media_types : List MediaType
  task : Nat
  deriving DecidableEq, Repr

/-- Runtime Provider instance (server/models/provider.py).  `domain`, `type`
and `instance_id` are properties reading the manifest/config; `available`
and `last_error` are the mutable status fields set by __init__ and by
load_provider. -/
structure Provider where
  domain : String
  instance_id : String
  type : ProviderType
  available : Bool
  last_error : Option String
  deriving DecidableEq, Repr

/-- ProviderManifest (common/models/provider.py), restricted to the fields
the embedded lifecycle code reads.  `config_entries`, `requirements`,
`codeowners` and `documentation` are not consulted by it. -/
structure ProviderManifest where
  type : ProviderType
  domain : String
  name : String
  multi_instance : Bool
  builtin : Bool
  load_by_default : Bool
  depends_on : Option String
  deriving DecidableEq, Repr

/-- ProviderConfig (one configured instance of a manifest domain). -/
structure ProviderConfig where
  instance_id : String
  domain : String
  name : Option String
  enabled : Bool
  deriving DecidableEq, Repr

/-- The MusicAssistantError taxonomy raised by the embedded code, plus the
plain Python exceptions its control flow can produce. -/
inductive MAError
  | setup_failed (msg : String)
  | provider_unavailable (msg : String)
  | key_error (msg : String)
  | py_attribute_error (msg : String)
  deriving DecidableEq, Repr

/-- Mutable server + music-controller state touched by the embedded code:
the provider registry (self._providers, an insertion-ordered dict keyed by
instance_id), the in-flight sync list (MusicController.in_progress_syncs),
the tracked background tasks (self._tracked_tasks, by task id), the emitted
event stream (event type and object id; payload data elided), a counter
producing fresh task ids, and the shutdown flag. -/
structure ServerState where
  providers : List Provider
  in_progress_syncs : List SyncTask
  tracked_tasks : List Nat
  events : List (EventType × Option String)
  next_task_id : Nat
  closing : Bool
  deriving DecidableEq, Repr

/-- MusicAssistant.signal_event: no-op while closing, otherwise records the
event on the stream (delivery to subscribers is modelled separately by
`delivered_subscribers`). -/
def signal_event (s : ServerState) (event : EventType) (object_id : Option String) : ServerState :=
  if s.closing then s
  else { s with events := s.events ++ [(event, object_id)] }

/-- MusicAssistant.get_provider: lookup by instance id, falling back to the
first provider with a matching domain.  The source raises
ProviderUnavailableError when both lookups fail; here that is the `none`
case. -/
def get_provider (s : ServerState) (provider_instance_or_domain : String) : Option Provider :=
  match s.providers.find? (fun p => p.instance_id == provider_instance_or_domain) with
  | some prov => some prov
  | none => s.providers.find? (fun p => p.domain == provider_instance_or_domain)

/-- The dedup scan at the head of MusicController._start_provider_sync: true
iff some in-flight SyncTask has the same provider_instance and its media-type
set intersects the requested set. -/
def sync_in_progress (tasks : List SyncTask) (provider_instance : String)
    (media_types : List MediaType) : Bool :=
  tasks.any fun sync_task =>
    sync_task.provider_instance == provider_instance
      && media_types.any (fun media_type => sync_task.media_types.contains media_type)

/-- MusicController._start_provider_sync: skip (and only log) when a sync for
this provider/media-type is already in flight; otherwise create a tracked
task running provider.sync_library, append a SyncTask record and signal
SYNC_TASKS_UPDATED.  The completion hook that later removes the record is
modelled in `unload_provider` where the embedded code awaits it.  The
ProviderUnavailableError path of get_provider is unreachable from the
callers embedded here (they pass ids of registered providers) and is
modelled as a no-op. -/
def start_provider_sync (s : ServerState) (provider_instance : String)
    (media_types : List MediaType) : ServerState :=
  if sync_in_progress s.in_progress_syncs provider_instance media_types then s
  else
    match get_provider s provider_instance with
    | none => s
    | some provider =>
      let task := s.next_task_id
      let sync_spec : SyncTask :=
        { provider_domain := provider.domain
          provider_instance := provider.instance_id
          media_types := media_types
          task := task }
      let s := { s with
        tracked_tasks := s.tracked_tasks ++ [task]
        next_task_id := task + 1 }
      let s := { s with in_progress_syncs := s.in_progress_syncs ++ [sync_spec] }
      signal_event s EventType.sync_tasks_updated none

/-- MusicController.providers: all loaded MUSIC providers. -/
def music_providers (s : ServerState) : List Provider :=
  s.providers.filter (fun p => p.type == ProviderType.music)

/-- MusicController.start_sync: default the media types to MediaType.ALL and
the provider selection to all music providers, then attempt a provider sync
for every selected music provider.  The unconditional metadata-scan trigger
afterwards is fire-and-forget into the metadata controller (out of scope)
and is elided. -/
def start_sync (s : ServerState) (media_types : Option (List MediaType))
    (providers : Option (List String)) : ServerState :=
  let mts := media_types.getD MediaType.all
  let provs := providers.getD ((music_providers s).map (fun p => p.instance_id))
  (music_providers s).foldl
    (fun acc provider =>
      if provs.contains provider.instance_id then
        start_provider_sync acc provider.instance_id mts
      else acc)
    s

/-- Abstract actions performed by MusicAssistant.unload_provider, in program
order: cancelling a sync task and awaiting its cancellation, closing the
provider, removing it from the registry, and signalling an event. -/
inductive Action
  | cancel_sync (task : Nat)
  | await_task (task : Nat)
  | close_provider (instance_id : String)
  | remove_provider (instance_id : String)
  | emit_event (event : EventType)
  deriving DecidableEq, Repr

/-- MusicAssistant.unload_provider, returning the new state together with
the sequence of actions it performed.  When the instance id is not in the
registry the body is skipped entirely.  Otherwise: every in-flight SyncTask
of that instance is cancelled and awaited (its completion hook removes the
record from in_progress_syncs and the task from the tracked set), then the
provider's close() runs, then the registry entry is popped, then
PROVIDERS_UPDATED is signalled (signal_event: dropped while closing).  The
SYNC_TASKS_UPDATED events emitted by the completion hooks are scheduled
asynchronously on the loop and are elided here. -/
def unload_provider (s : ServerState) (instance_id : String) : ServerState × List Action :=
  match s.providers.find? (fun p => p.instance_id == instance_id) with
  | none => (s, [])
  | some _ =>
    let cancelled := s.in_progress_syncs.filter
      (fun sync_task => sync_task.provider_instance == instance_id)
    let cancel_actions := cancelled.foldr
      (fun sync_task acc => Action.cancel_sync sync_task.task :: Action.await_task sync_task.task :: acc)
      []
    let s := { s with
      in_progress_syncs := s.in_progress_syncs.filter
        (fun sync_task => !(sync_task.provider_instance == instance_id))
      tracked_tasks := s.tracked_tasks.filter
        (fun task => !(cancelled.any (fun sync_task => sync_task.task == task))) }
    let s := { s with providers := s.providers.filter (fun p => !(p.instance_id == instance_id)) }
    let s' := signal_event s EventType.providers_updated none
    (s',
      cancel_actions ++ [Action.close_provider instance_id, Action.remove_provider instance_id]
        ++ (if s.closing then [] else [Action.emit_event EventType.providers_updated]))

/-- Behaviour of the pieces of a provider package that load_provider runs
but whose code lives outside the embedded core: whether the dynamic
module-import and class lookup succeeds for a domain, and what the instance's
setup() coroutine does (return, raise a MusicAssistantError, or raise some
other exception). -/
inductive SetupOutcome
  | ok
  | raises_mass (msg : String)
  | raises_other (msg : String)
  deriving DecidableEq, Repr

/-- The environment load_provider consults: the manifest registry
self._available_providers (an insertion-ordered dict keyed by domain) plus
the per-domain import/class-lookup result and the per-instance setup()
behaviour. -/
structure Env where
  available_providers : List ProviderManifest
  class_found : String → Bool
  setup_outcome : String → SetupOutcome

/-- Dict assignment self._providers[provider.instance_id] = provider:
replace an existing entry in place, otherwise append. -/
def register_provider (s : ServerState) (provider : Provider) : ServerState :=
  if s.providers.any (fun q => q.instance_id == provider.instance_id) then
    let updated := s.providers.map
      (fun q => if q.instance_id == provider.instance_id then provider else q)
    { s with providers := updated }
  else { s with providers := s.providers ++ [provider] }

/-- Mutation of the registered provider object's status fields
(provider.available / provider.last_error assignments in load_provider). -/
def set_provider_status (s : ServerState) (instance_id : String)
    (available : Bool) (last_error : Option String) : ServerState :=
  let updated := s.providers.map
    (fun q => if q.instance_id == instance_id then
        { q with available := available, last_error := last_error }
      else q)
  { s with providers := updated }

/-- The try-block of MusicAssistant.load_provider (module import, class
lookup, construction, registration, setup(), the post-setup status update
and music-provider sync kick-off) together with its two exception handlers
and the unconditional PROVIDERS_UPDATED signal after them.  Every exception
raised inside the try-block is caught by the broad outer handler and only
logged, so this part never propagates an error; a MusicAssistantError from
setup() additionally records last_error and available=False (the inner
handler) before the outer handler swallows its re-raise. -/
def load_provider_try (env : Env) (s : ServerState) (conf : ProviderConfig)
    (prov_manifest : ProviderManifest) : ServerState × Option MAError :=
  if !env.class_found conf.domain then
    -- import failure or "Unable to locate Provider class": caught by the
    -- outer except and logged; the always-signal still runs
    (signal_event s EventType.providers_updated none, none)
  else
    let provider : Provider :=
      { domain := prov_manifest.domain
        instance_id := conf.instance_id
        type := prov_manifest.type
        available := false
        last_error := none }
    let s := register_provider s provider
    match env.setup_outcome conf.instance_id with
    | SetupOutcome.raises_mass msg =>
      let s := set_provider_status s conf.instance_id false (some msg)
      (signal_event s EventType.providers_updated none, none)
    | SetupOutcome.raises_other _ =>
      -- not a MusicAssistantError: the inner handler does not run (no
      -- last_error/available update), the outer handler logs it
      (signal_event s EventType.providers_updated none, none)
    | SetupOutcome.ok =>
      let s := set_provider_status s conf.instance_id true none
      let s :=
        if prov_manifest.type == ProviderType.music then
          start_sync s none (some [conf.instance_id])
        else s
      (signal_event s EventType.providers_updated none, none)

/-- MusicAssistant.load_provider.  First unloads any instance with the same
instance id, returns silently if the config is disabled, then runs the two
pre-checks in source order: the single-instance check reads
prov_manifest.multi_instance before the manifest is known to exist (an
AttributeError on None when the manifest is missing but another instance of
the domain is loaded), then the manifest-missing check.  Both pre-check
errors are raised outside the try-block, so they propagate to the caller
and skip the final PROVIDERS_UPDATED signal. -/
def load_provider (env : Env) (s : ServerState) (conf : ProviderConfig) :
    ServerState × Option MAError :=
  let s := (unload_provider s conf.instance_id).1
  if !conf.enabled then (s, none)
  else
    let prov_manifest := env.available_providers.find? (fun m => m.domain == conf.domain)
    let existing := s.providers.find? (fun p => p.domain == conf.domain)
    match existing, prov_manifest with
    | some _, none =>
      (s, some (MAError.py_attribute_error "NoneType has no attribute multi_instance"))
    | some _, some m =>
      if !m.multi_instance then
        (s, some (MAError.setup_failed
          ("Provider " ++ conf.domain ++ " already loaded and only one instance allowed.")))
      else load_provider_try env s conf m
    | none, none =>
      (s, some (MAError.setup_failed ("Provider " ++ conf.domain ++ " manifest not found")))
    | none, some m => load_provider_try env s conf m

/-- One pass of the provider-loading loop in MusicAssistant._load_providers:
for every config, look its manifest up with a plain dict subscript (a
KeyError when absent), defer depends_on providers unless allowed, skip
already-loaded instance ids, and call load_provider.  No handler surrounds
the await, so an error propagating out of load_provider aborts the rest of
the pass. -/
def load_pass (env : Env) (allow_depends_on : Bool) :
    ServerState → List ProviderConfig → ServerState × Option MAError
  | s, [] => (s, none)
  | s, conf :: rest =>
    match env.available_providers.find? (fun m => m.domain == conf.domain) with
    | none => (s, some (MAError.key_error conf.domain))
    | some prov_manifest =>
      if prov_manifest.depends_on.isSome && !allow_depends_on then
        load_pass env allow_depends_on s rest
      else if s.providers.any (fun p => p.instance_id == conf.instance_id) then
        load_pass env allow_depends_on s rest
      else
        match load_provider env s conf with
        | (s', none) => load_pass env allow_depends_on s' rest
        | (s', some e) => (s', some e)

/-- MusicAssistant._load_providers, restricted to its loading loop: two
passes over the configured providers, first the providers without a
depends_on declaration, then the rest.  (Manifest preloading and the
creation of default configs for load_by_default providers happen before
this loop in the source and involve the config controller, which is out of
scope.)  An error escaping a pass aborts _load_providers. -/
def load_providers (env : Env) (s : ServerState) (configs : List ProviderConfig) :
    ServerState × Option MAError :=
  match load_pass env false s configs with
  | (s1, none) => load_pass env true s1 configs
  | r => r

/-- One registration in self._subscribers: the callback (identified by a
number here), the optional event-type filter and the optional object-id
filter; subscribe() normalises a single EventType / id to a one-element
tuple before storing, so the filters are tuples or None. -/
structure Subscriber where
  id : Nat
  event_filter : Option (List EventType)
  id_filter : Option (List String)
  deriving DecidableEq, Repr

/-- The two filter checks inside the delivery loop of signal_event:
`not (event_filter is None or event in event_filter)` skips, then
`not (id_filter is None or object_id in id_filter)` skips.  Note that a
None object id is never a member of a tuple of strings. -/
def subscriber_matches (sub : Subscriber) (event : EventType)
    (object_id : Option String) : Bool :=
  (match sub.event_filter with
    | none => true
    | some event_filter => event_filter.contains event)
  &&
  (match sub.id_filter with
    | none => true
    | some id_filter =>
      match object_id with
      | none => false
      | some oid => id_filter.contains oid)

/-- The subscribers whose callback signal_event invokes (directly or
scheduled on the loop) for a given event: none while the server is closing,
otherwise exactly those passing both filter checks. -/
def delivered_subscribers (closing : Bool) (subscribers : List Subscriber)
    (event : EventType) (object_id : Option String) : List Subscriber :=
  if closing then []
  else subscribers.filter (fun sub => subscriber_matches sub event object_id)

/-- The library database as touched by MusicController._setup_database: the
settings row holding the schema version (`none` when the row is absent; the
str()/int() round-trip through the TEXT column is elided, with int() of a
malformed value mapping to version 0 like the source's except clause), the
remaining settings rows, and the contents of the other tables.  Table rows
are abstract; CREATE TABLE IF NOT EXISTS leaves existing contents in place
and DROP+recreate empties a table. -/
structure Database where
  settings_version : Option Nat
  settings_other : List (String × String)
  track_loudness : List (Nat × String)
  play_log : List (Nat × String)
  artists : List Nat
  albums : List Nat
  tracks : List Nat
  playlists : List Nat
  radios : List Nat
  deriving DecidableEq, Repr

/-- MusicController._setup_database for a compiled-in SCHEMA_VERSION: create
tables if absent, read the stored version (0 when absent or unparsable),
and when it is neither 0 nor the expected version perform the migration
step — which drops and recreates the five type-specific tables only in the
`prev_version < SCHEMA_VERSION` branch — then rewrite the stored version
and VACUUM (elided).  Returns the new database and whether the destructive
drop ran. -/
def setup_database (schema_version : Nat) (db : Database) : Database × Bool :=
  let prev_version := db.settings_version.getD 0
  let step : Database × Bool :=
    if prev_version != 0 && prev_version != schema_version then
      if prev_version < schema_version then
        ({ db with artists := [], albums := [], tracks := [], playlists := [], radios := [] },
          true)
      else (db, false)
    else (db, false)
  ({ step.1 with settings_version := some schema_version }, step.2)

/-- TRACK_EXTENSIONS constant of filesystem_local/base.py. -/
def TRACK_EXTENSIONS : List String :=
  ["mp3", "m4a", "mp4", "flac", "wav", "ogg", "aiff", "wma", "dsf"]

/-- PLAYLIST_EXTENSIONS constant. -/
def PLAYLIST_EXTENSIONS : List String := ["m3u", "pls"]

/-- SUPPORTED_EXTENSIONS = TRACK_EXTENSIONS + PLAYLIST_EXTENSIONS. -/
def SUPPORTED_EXTENSIONS : List String := TRACK_EXTENSIONS ++ PLAYLIST_EXTENSIONS

/-- FileSystemItem, restricted to the fields sync_library reads. -/
structure FileSystemItem where
  name : String
  path : String
  checksum : String
  deriving DecidableEq, Repr

/-- FileSystemItem.ext: name.rsplit(".", 1)[1], None on IndexError (no dot
in the name).  Implemented on the character list — the characters after the
last dot — so that it evaluates inside the kernel. -/
def file_ext (name : String) : Option String :=
  if name.toList.contains '.' then
    some (String.mk (((name.toList.reverse).takeWhile (fun c => !(c == '.'))).reverse))
  else none

/-- The two skip checks at the head of the sync_library walk loop:
`"." not in item.name or not item.ext` (system files / no extension, where
an empty extension string is falsy) and `item.ext not in
SUPPORTED_EXTENSIONS`. -/
def is_supported_file (item : FileSystemItem) : Bool :=
  match file_ext item.name with
  | none => false
  | some e => !(e == "") && SUPPORTED_EXTENSIONS.contains e

/-- Python dict subscript assignment on an insertion-ordered association
list: overwrite in place when the key exists, else append. -/
def dict_set (m : List (String × String)) (k v : String) : List (String × String) :=
  if m.any (fun p => p.1 == k) then
    m.map (fun p => if p.1 == k then (k, v) else p)
  else m ++ [(k, v)]

/-- Python dict .get on the association list. -/
def dict_get (m : List (String × String)) (k : String) : Option String :=
  (m.find? (fun p => p.1 == k)).map (fun p => p.2)

/-- Observable store operations issued by sync_library: a track upsert via
tracks.add_db_item with its overwrite_existing argument, a playlist upsert
via playlists.add_db_item (called without an overwrite argument, with the
item marked in-library), and the provider-mapping removals performed for
deleted paths. -/
inductive SyncAction
  | upsert_track (path : String) (overwrite_existing : Bool)
  | upsert_playlist (path : String)
  | remove_track_mapping (path : String)
  | remove_playlist_mapping (path : String)
  deriving DecidableEq, Repr

/-- The walk loop of FileSystemProviderBase.sync_library, threading the
accumulating cur_checksums dict and the store operations issued so far.
For every supported item the current checksum is recorded first; the item
is skipped when it equals the previously recorded checksum, otherwise a
track is parsed and upserted with overwrite_existing = (path was a key of
the previous map), and a playlist is parsed and upserted (checksum stamped,
in_library forced).  Parsing is modelled as always succeeding; the per-item
broad except that logs and continues, and the checkpoint cache write every
100 items (overwritten by the final write), are elided. -/
def sync_walk (prev_checksums : List (String × String)) :
    List FileSystemItem → List (String × String) → List SyncAction →
      List (String × String) × List SyncAction
  | [], cur_checksums, actions => (cur_checksums, actions)
  | item :: rest, cur_checksums, actions =>
    if !(is_supported_file item) then
      sync_walk prev_checksums rest cur_checksums actions
    else
      let cur' := dict_set cur_checksums item.path item.checksum
      if some item.checksum == dict_get prev_checksums item.path then
        sync_walk prev_checksums rest cur' actions
      else if TRACK_EXTENSIONS.contains ((file_ext item.name).getD "") then
        let overwrite_existing := (dict_get prev_checksums item.path).isSome
        sync_walk prev_checksums rest cur'
          (actions ++ [SyncAction.upsert_track item.path overwrite_existing])
      else
        sync_walk prev_checksums rest cur'
          (actions ++ [SyncAction.upsert_playlist item.path])

/-- FileSystemProviderBase._process_deletions: for every deleted path split
off the extension (the source's tuple unpacking of rsplit would raise on a
path without a dot; previous-map keys always carry one), skip unsupported
extensions, and remove this provider's mapping from the matching playlist
or track item when the store still has one. -/
def process_deletions (deleted_files : List String) : List SyncAction :=
  deleted_files.filterMap fun file_path =>
    match file_ext file_path with
    | none => none
    | some ext =>
      if !SUPPORTED_EXTENSIONS.contains ext then none
      else if PLAYLIST_EXTENSIONS.contains ext then
        some (SyncAction.remove_playlist_mapping file_path)
      else some (SyncAction.remove_track_mapping file_path)

/-- Result of one sync_library run: the checksum map written to the cache
by the final cache.set, and the store operations in order. -/
structure SyncResult where
  persisted : List (String × String)
  actions : List SyncAction
  deriving DecidableEq, Repr

/-- FileSystemProviderBase.sync_library: load the previous path-to-checksum
map from the cache (empty when absent), walk the full listing, persist the
final cur_checksums, compute deleted = previous keys minus current keys
(a Python set difference; modelled in previous-map order) and process the
deletions. -/
def sync_library (prev_checksums : Option (List (String × String)))
    (walk : List FileSystemItem) : SyncResult :=
  let prev := prev_checksums.getD []
  let result := sync_walk prev walk [] []
  let deleted_files := (prev.map (fun p => p.1)).filter
    (fun k => !(result.1.any (fun p => p.1 == k)))
  { persisted := result.1, actions := result.2 ++ process_deletions deleted_files }

/-! Helper lemmas. -/

theorem sync_in_progress_of_overlap (tasks : List SyncTask) (inst : String)
    (mts : List MediaType)
    (h : ∃ st ∈ tasks, st.provider_instance = inst ∧ ∃ mt ∈ mts, mt ∈ st.media_types) :
    sync_in_progress tasks inst mts = true := by
  obtain ⟨st, hst, hpi, mt, hmt, hmem⟩ := h
  simp only [sync_in_progress, List.any_eq_true, Bool.and_eq_true, beq_iff_eq]
  exact ⟨st, hst, hpi, mt, hmt, by simpa using hmem⟩

theorem start_provider_sync_skip (s : ServerState) (inst : String) (mts : List MediaType)
    (h : ∃ st ∈ s.in_progress_syncs, st.provider_instance = inst ∧
      ∃ mt ∈ mts, mt ∈ st.media_types) :
    start_provider_sync s inst mts = s := by
  unfold start_provider_sync
  rw [sync_in_progress_of_overlap s.in_progress_syncs inst mts h]
  simp

/-! Sample fixtures used by witnesses and counterexamples. -/

def sample_provider : Provider :=
  { domain := "filesystem_local", instance_id := "fs1", type := ProviderType.music,
    available := true, last_error := none }

def sample_sync : SyncTask :=
  { provider_domain := "filesystem_local", provider_instance := "fs1",
    media_types := [MediaType.track, MediaType.artist], task := 0 }

def sample_state : ServerState :=
  { providers := [sample_provider], in_progress_syncs := [sample_sync],
    tracked_tasks := [0], events := [], next_task_id := 1, closing := false }

/-- C1: for every provider instance P and requested media-type set M, if the
in-progress sync list already holds a SyncTask for P whose media-type set
intersects M, then a second call to _start_provider_sync for P with M
creates no new SyncTask: the in-progress list, the tracked tasks and the
event stream are all unchanged by that call. -/
theorem c1_sync_dedup (s : ServerState) (inst : String) (mts : List MediaType)
    (h : ∃ st ∈ s.in_progress_syncs, st.provider_instance = inst ∧
      ∃ mt ∈ mts, mt ∈ st.media_types) :
    (start_provider_sync s inst mts).in_progress_syncs = s.in_progress_syncs ∧
      (start_provider_sync s inst mts).tracked_tasks = s.tracked_tasks ∧
      (start_provider_sync s inst mts).events = s.events := by
  rw [start_provider_sync_skip s inst mts h]
  exact ⟨rfl, rfl, rfl⟩

theorem c1_witness :
    (0 < ([MediaType.track, MediaType.album] : List MediaType).length) ∧
      (start_provider_sync sample_state "fs1"
        [MediaType.track, MediaType.album]).in_progress_syncs =
          sample_state.in_progress_syncs ∧
      (start_provider_sync sample_state "fs1"
        [MediaType.track, MediaType.album]).tracked_tasks =
          sample_state.tracked_tasks ∧
      (start_provider_sync sample_state "fs1"
        [MediaType.track, MediaType.album]).events = sample_state.events :=
  ⟨by decide, c1_sync_dedup sample_state "fs1" [MediaType.track, MediaType.album] (by decide)⟩

/-- C10 (implicit): the sync dedup skip is provider-wide, not per media
type — when some in-flight SyncTask for P overlaps the requested set M, the
whole call is skipped: the in-flight list is exactly as before, so each
requested media type that no in-flight task of P covered before the call is
still covered by no in-flight task of P after it (the non-overlapping
requested types are silently not synced). -/
theorem c10_dedup_provider_wide (s : ServerState) (inst : String) (mts : List MediaType)
    (h : ∃ st ∈ s.in_progress_syncs, st.provider_instance = inst ∧
      ∃ mt ∈ mts, mt ∈ st.media_types) :
    start_provider_sync s inst mts = s ∧
      ∀ mt ∈ mts,
        (¬ ∃ st ∈ s.in_progress_syncs, st.provider_instance = inst ∧ mt ∈ st.media_types) →
        ¬ ∃ st ∈ (start_provider_sync s inst mts).in_progress_syncs,
            st.provider_instance = inst ∧ mt ∈ st.media_types := by
  refine ⟨start_provider_sync_skip s inst mts h, ?_⟩
  intro mt _ hnone
  rw [start_provider_sync_skip s inst mts h]
  exact hnone

theorem c10_witness :
    (MediaType.album ∈ ([MediaType.track, MediaType.album] : List MediaType)) ∧
      start_provider_sync sample_state "fs1" [MediaType.track, MediaType.album] =
        sample_state ∧
      ¬ ∃ st ∈ (start_provider_sync sample_state "fs1"
          [MediaType.track, MediaType.album]).in_progress_syncs,
            st.provider_instance = "fs1" ∧ MediaType.album ∈ st.media_types := by
  have h := c10_dedup_provider_wide sample_state "fs1" [MediaType.track, MediaType.album]
    (by decide)
  exact ⟨by decide, h.1, h.2 MediaType.album (by decide) (by decide)⟩

/-- An empty server state (fresh registry, nothing in flight). -/
def empty_state : ServerState :=
  { providers := [], in_progress_syncs := [], tracked_tasks := [], events := [],
    next_task_id := 0, closing := false }

/-- C9: for every published event and every subscriber, signal_event
invokes the subscriber's callback if and only if its type filter is absent
or contains the event's type, and its id filter is absent or contains the
event's object id (so in particular a subscriber filtering on
SYNC_TASKS_UPDATED never receives a PROVIDERS_UPDATED event, and one
filtering on id "x" never receives an event with object id "y"). -/
theorem c9_event_filter_correct (subscribers : List Subscriber) (event : EventType)
    (object_id : Option String) (sub : Subscriber) (hmem : sub ∈ subscribers) :
    sub ∈ delivered_subscribers false subscribers event object_id ↔
      ((∀ event_filter, sub.event_filter = some event_filter → event ∈ event_filter) ∧
        (∀ id_filter, sub.id_filter = some id_filter →
          ∃ oid, object_id = some oid ∧ oid ∈ id_filter)) := by
  simp only [delivered_subscribers, Bool.false_eq_true, if_false, List.mem_filter, hmem,
    true_and]
  cases hef : sub.event_filter with
  | none =>
    cases hidf : sub.id_filter with
    | none => simp [subscriber_matches, hef, hidf]
    | some id_filter =>
      cases object_id with
      | none => simp [subscriber_matches, hef, hidf]
      | some oid => simp [subscriber_matches, hef, hidf]
  | some event_filter =>
    cases hidf : sub.id_filter with
    | none => simp [subscriber_matches, hef, hidf]
    | some id_filter =>
      cases object_id with
      | none => simp [subscriber_matches, hef, hidf]
      | some oid => simp [subscriber_matches, hef, hidf, and_comm]

/-- A subscriber listening only for SYNC_TASKS_UPDATED events. -/
def sample_subscriber : Subscriber :=
  { id := 0, event_filter := some [EventType.sync_tasks_updated], id_filter := some ["x"] }

theorem c9_witness :
    sample_subscriber ∉
      delivered_subscribers false [sample_subscriber] EventType.providers_updated (some "y") :=
  fun h =>
    by
      have hc := (c9_event_filter_correct [sample_subscriber] EventType.providers_updated
        (some "y") sample_subscriber (by decide)).mp h
      have := hc.1 [EventType.sync_tasks_updated] rfl
      simp at this

theorem setup_database_settings_version (schema_version : Nat) (db : Database) :
    (setup_database schema_version db).1.settings_version = some schema_version := rfl

theorem setup_database_no_migration_of_eq (schema_version : Nat) (db : Database)
    (h : db.settings_version = some schema_version) :
    (setup_database schema_version db).2 = false := by
  simp [setup_database, h]

/-- A populated database stored at schema version 2. -/
def c5_database : Database :=
  { settings_version := some 2, settings_other := [("k", "v")],
    track_loudness := [(1, "fs")], play_log := [(2, "fs")],
    artists := [7], albums := [8], tracks := [9], playlists := [10], radios := [11] }

/-- C5 counterexample: with expected schema version 1 and stored version 2
(differing and nonzero) no table is dropped — the migration body guards the
drops with `prev_version < SCHEMA_VERSION`, so a stored version greater
than the expected one performs no destructive migration, refuting the
claim that any nonzero differing version does. -/
theorem c5_counterexample :
    (setup_database 1 c5_database).1.artists = [7] ∧
      (setup_database 1 c5_database).2 = false := by
  decide

/-- C5 amended: on store startup the five type-specific tables are dropped
and recreated exactly when the stored schema version is nonzero and
strictly less than the expected compiled-in version (a stored version
greater than the expected one is rewritten without dropping anything); the
settings, loudness and play-log tables are always preserved; the stored
version is rewritten to the expected version; and starting the store twice
in a row with the current schema version performs no destructive migration
the second time. -/
theorem c5_amended_migration (schema_version : Nat) (db : Database) :
    ((setup_database schema_version db).2 = true ↔
      (db.settings_version.getD 0 ≠ 0 ∧ db.settings_version.getD 0 < schema_version)) ∧
    ((setup_database schema_version db).2 = true →
      (setup_database schema_version db).1.artists = [] ∧
      (setup_database schema_version db).1.albums = [] ∧
      (setup_database schema_version db).1.tracks = [] ∧
      (setup_database schema_version db).1.playlists = [] ∧
      (setup_database schema_version db).1.radios = []) ∧
    ((setup_database schema_version db).2 = false →
      (setup_database schema_version db).1.artists = db.artists ∧
      (setup_database schema_version db).1.albums = db.albums ∧
      (setup_database schema_version db).1.tracks = db.tracks ∧
      (setup_database schema_version db).1.playlists = db.playlists ∧
      (setup_database schema_version db).1.radios = db.radios) ∧
    (setup_database schema_version db).1.settings_other = db.settings_other ∧
    (setup_database schema_version db).1.track_loudness = db.track_loudness ∧
    (setup_database schema_version db).1.play_log = db.play_log ∧
    (setup_database schema_version db).1.settings_version = some schema_version ∧
    (setup_database schema_version (setup_database schema_version db).1).2 = false := by
  refine ⟨?_, ?_, ?_, ?_, ?_, ?_, rfl,
    setup_database_no_migration_of_eq schema_version _
      (setup_database_settings_version schema_version db)⟩
  all_goals
    simp only [setup_database]
    split_ifs with h1 h2 <;> simp_all [Bool.and_eq_true, bne_iff_ne] <;> omega

theorem signal_event_providers (s : ServerState) (e : EventType) (o : Option String) :
    (signal_event s e o).providers = s.providers := by
  unfold signal_event
  split <;> rfl

theorem unload_find_self (s : ServerState) (instance_id : String) :
    ((unload_provider s instance_id).1).providers.find?
      (fun p => p.instance_id == instance_id) = none := by
  cases hf : s.providers.find? (fun p => p.instance_id == instance_id) with
  | none =>
    simp only [unload_provider, hf]
  | some p =>
    simp only [unload_provider, hf, signal_event_providers]
    rw [List.find?_eq_none]
    intro x hx
    have hx2 := (List.mem_filter.mp hx).2
    simp only [Bool.not_eq_true'] at hx2
    simp [hx2]

theorem find_registered (l : List Provider) (cid : String) (prov : Provider)
    (hl : l.find? (fun p => p.instance_id == cid) = none)
    (hid : prov.instance_id = cid) (av : Bool) (le : Option String) :
    ((l ++ [prov]).map (fun q => if q.instance_id == cid then
        { q with available := av, last_error := le } else q)).find?
      (fun p => p.instance_id == cid) =
      some { prov with available := av, last_error := le } := by
  induction l with
  | nil => simp [hid]
  | cons a l ih =>
    have ha : ¬ ((a.instance_id == cid) = true) :=
      List.find?_eq_none.mp hl a (List.mem_cons_self a l)
    have hl' : l.find? (fun p => p.instance_id == cid) = none := by
      rw [List.find?_eq_none]
      intro x hx
      exact List.find?_eq_none.mp hl x (List.mem_cons_of_mem a hx)
    rw [List.cons_append, List.map_cons, if_neg ha,
      List.find?_cons_of_neg (p := fun x : Provider => x.instance_id == cid) _ ha]
    exact ih hl'

/-- A manifest for a single-instance music provider. -/
def c2_manifest : ProviderManifest :=
  { type := ProviderType.music, domain := "spotify", name := "Spotify",
    multi_instance := false, builtin := false, load_by_default := false, depends_on := none }

/-- Environment in which the provider's setup() raises
MusicAssistantError("Login failed"). -/
def c2_env : Env :=
  { available_providers := [c2_manifest],
    class_found := fun _ => true,
    setup_outcome := fun _ => SetupOutcome.raises_mass "Login failed" }

def c2_config : ProviderConfig :=
  { instance_id := "spotify1", domain := "spotify", name := none, enabled := true }

/-- C2 counterexample: when setup() raises, load_provider catches the error,
records it on the registered instance — but its broad outer handler then
swallows the re-raise, so the call returns normally: no error reaches the
caller of load_provider, refuting the claim that the error is re-raised to
it. -/
theorem c2_counterexample :
    (load_provider c2_env empty_state c2_config).2 = none ∧
      (load_provider c2_env empty_state c2_config).1.providers =
        [{ domain := "spotify", instance_id := "spotify1", type := ProviderType.music,
            available := false, last_error := some "Login failed" }] := by
  decide

theorem load_provider_try_setup_error (env : Env) (s : ServerState)
    (conf : ProviderConfig) (m : ProviderManifest) (msg : String)
    (hclass : env.class_found conf.domain = true)
    (hsetup : env.setup_outcome conf.instance_id = SetupOutcome.raises_mass msg)
    (hnoid : s.providers.find? (fun p => p.instance_id == conf.instance_id) = none) :
    (load_provider_try env s conf m).2 = none ∧
      (load_provider_try env s conf m).1.providers.find?
          (fun p => p.instance_id == conf.instance_id) =
        some { domain := m.domain, instance_id := conf.instance_id, type := m.type,
                available := false, last_error := some msg } := by
  have hany : s.providers.any (fun q => q.instance_id == conf.instance_id) = false := by
    rw [List.any_eq_false]
    intro x hx
    exact List.find?_eq_none.mp hnoid x hx
  simp only [load_provider_try, hclass, Bool.not_true, Bool.false_eq_true, if_false, hsetup]
  refine ⟨trivial, ?_⟩
  simp only [signal_event_providers, set_provider_status, register_provider, hany,
    Bool.false_eq_true, if_false]
  exact find_registered _ conf.instance_id _ hnoid rfl false (some msg)

/-- C2 amended: for every provider config whose provider's setup() raises a
MusicAssistantError during load_provider (whether it is the domain's first
instance, or a further instance of a multi_instance domain), the error is
caught, its message is stored in the instance's last_error, the instance's
available flag is set to false, and the instance remains present in the
provider registry after the call; the inner handler re-raises the error but
load_provider's broad outer handler catches and only logs it, so the call
returns normally to its caller instead of re-raising. -/
theorem c2_amended_setup_error (env : Env) (s : ServerState) (conf : ProviderConfig)
    (m : ProviderManifest) (msg : String)
    (henabled : conf.enabled = true)
    (hmanifest : env.available_providers.find? (fun x => x.domain == conf.domain) = some m)
    (hmulti : ((unload_provider s conf.instance_id).1).providers.find?
        (fun p => p.domain == conf.domain) = none ∨ m.multi_instance = true)
    (hclass : env.class_found conf.domain = true)
    (hsetup : env.setup_outcome conf.instance_id = SetupOutcome.raises_mass msg) :
    (load_provider env s conf).2 = none ∧
      (load_provider env s conf).1.providers.find?
          (fun p => p.instance_id == conf.instance_id) =
        some { domain := m.domain, instance_id := conf.instance_id, type := m.type,
                available := false, last_error := some msg } := by
  cases hex : ((unload_provider s conf.instance_id).1).providers.find?
      (fun p => p.domain == conf.domain) with
  | none =>
    simp only [load_provider, henabled, Bool.not_true, Bool.false_eq_true, if_false,
      hmanifest, hex]
    exact load_provider_try_setup_error env _ conf m msg hclass hsetup
      (unload_find_self s conf.instance_id)
  | some q =>
    have hm1 : m.multi_instance = true := by
      rcases hmulti with h0 | h1
      · rw [h0] at hex
        cases hex
      · exact h1
    simp only [load_provider, henabled, Bool.not_true, Bool.false_eq_true, if_false,
      hmanifest, hex, hm1]
    exact load_provider_try_setup_error env _ conf m msg hclass hsetup
      (unload_find_self s conf.instance_id)

/-- A multi-instance manifest for the same domain. -/
def c2_multi_manifest : ProviderManifest :=
  { type := ProviderType.music, domain := "spotify", name := "Spotify",
    multi_instance := true, builtin := false, load_by_default := false, depends_on := none }

def c2_multi_env : Env :=
  { available_providers := [c2_multi_manifest],
    class_found := fun _ => true,
    setup_outcome := fun _ => SetupOutcome.raises_mass "Login failed" }

/-- A first, healthy instance of the multi-instance spotify domain. -/
def c2_first_instance : Provider :=
  { domain := "spotify", instance_id := "spotify1", type := ProviderType.music,
    available := true, last_error := none }

def c2_multi_state : ServerState :=
  { providers := [c2_first_instance], in_progress_syncs := [], tracked_tasks := [],
    events := [], next_task_id := 0, closing := false }

/-- A second config of the multi-instance domain. -/
def c2_config2 : ProviderConfig :=
  { instance_id := "spotify2", domain := "spotify", name := none, enabled := true }

theorem c2_amended_witness :
    (load_provider c2_multi_env c2_multi_state c2_config2).2 = none ∧
      (load_provider c2_multi_env c2_multi_state c2_config2).1.providers.find?
          (fun p => p.instance_id == "spotify2") =
        some { domain := "spotify", instance_id := "spotify2", type := ProviderType.music,
                available := false, last_error := some "Login failed" } :=
  c2_amended_setup_error c2_multi_env c2_multi_state c2_config2 c2_multi_manifest
    "Login failed" rfl rfl (Or.inr rfl) rfl rfl

/-- The manifest backing the sample filesystem provider. -/
def c8_manifest : ProviderManifest :=
  { type := ProviderType.music, domain := "filesystem_local", name := "Filesystem",
    multi_instance := false, builtin := false, load_by_default := false, depends_on := none }

theorem load_provider_try_snd (env : Env) (s : ServerState) (conf : ProviderConfig)
    (m : ProviderManifest) : (load_provider_try env s conf m).2 = none := by
  unfold load_provider_try
  split
  · rfl
  · split <;> rfl

theorem load_provider_snd_none (env : Env) (s : ServerState) (conf : ProviderConfig)
    (m : ProviderManifest)
    (hmanifest : env.available_providers.find? (fun x => x.domain == conf.domain) = some m)
    (hmulti : ((unload_provider s conf.instance_id).1).providers.find?
        (fun p => p.domain == conf.domain) = none ∨ m.multi_instance = true) :
    (load_provider env s conf).2 = none := by
  cases hen : conf.enabled with
  | false => simp [load_provider, hen]
  | true =>
    simp only [load_provider, hen, Bool.not_true, Bool.false_eq_true, if_false, hmanifest]
    cases hex : ((unload_provider s conf.instance_id).1).providers.find?
        (fun p => p.domain == conf.domain) with
    | none => exact load_provider_try_snd env _ conf m
    | some q =>
      rcases hmulti with h0 | h1
      · rw [h0] at hex
        cases hex
      · simp only [h1, Bool.not_true, Bool.false_eq_true, if_false]
        exact load_provider_try_snd env _ conf m

def c3_env : Env :=
  { available_providers :=
      [ c8_manifest,
        { type := ProviderType.metadata, domain := "fanarttv", name := "Fanart.tv",
          multi_instance := false, builtin := false, load_by_default := false,
          depends_on := none } ],
    class_found := fun _ => true,
    setup_outcome := fun _ => SetupOutcome.ok }

def c3_configs : List ProviderConfig :=
  [ { instance_id := "fsA", domain := "filesystem_local", name := none, enabled := true },
    { instance_id := "fsB", domain := "filesystem_local", name := none, enabled := true },
    { instance_id := "meta1", domain := "fanarttv", name := none, enabled := true } ]

/-- C3 counterexample: with three enabled configs — two for the
single-instance filesystem domain followed by one for a metadata domain —
the second config's SetupFailed (raised by load_provider before its
try-block) propagates out of the loading loop of _load_providers, which has
no handler around the await, so the third provider is never loaded: the
error is not caught at the provider level and it does prevent the
remaining providers from being loaded. -/
theorem c3_counterexample :
    (load_providers c3_env empty_state c3_configs).2 =
      some (MAError.setup_failed
        "Provider filesystem_local already loaded and only one instance allowed.") ∧
      (load_providers c3_env empty_state c3_configs).1.providers.all
        (fun p => !(p.instance_id == "meta1")) = true := by
  decide

/-- C3 amended: an error during module import, provider construction or
setup() is caught inside load_provider (outer broad except) and does not
prevent the remaining providers in the sequence from being loaded — the
loading loop simply continues with the next config; but a SetupFailed
raised by load_provider's pre-checks (missing manifest with another
instance of the domain loaded, or a single-instance violation) propagates
out of load_provider and aborts the rest of the loading loop. -/
theorem c3_amended_inner_errors_caught (env : Env) (allow_depends_on : Bool)
    (s : ServerState) (conf : ProviderConfig) (rest : List ProviderConfig)
    (m : ProviderManifest)
    (hmanifest : env.available_providers.find? (fun x => x.domain == conf.domain) = some m)
    (hdep : m.depends_on = none ∨ allow_depends_on = true)
    (hreg : s.providers.any (fun p => p.instance_id == conf.instance_id) = false)
    (hmulti : ((unload_provider s conf.instance_id).1).providers.find?
        (fun p => p.domain == conf.domain) = none ∨ m.multi_instance = true) :
    (load_provider env s conf).2 = none ∧
      load_pass env allow_depends_on s (conf :: rest) =
        load_pass env allow_depends_on (load_provider env s conf).1 rest := by
  have hsnd := load_provider_snd_none env s conf m hmanifest hmulti
  refine ⟨hsnd, ?_⟩
  have hdep' : (m.depends_on.isSome && !allow_depends_on) = false := by
    rcases hdep with h | h <;> simp [h]
  rcases hre : load_provider env s conf with ⟨s', e⟩
  have he : e = none := by
    rw [hre] at hsnd
    exact hsnd
  subst he
  simp only [load_pass, hmanifest, hdep', Bool.false_eq_true, if_false, hreg, hre]

def c3_bad_env : Env :=
  { available_providers := [c8_manifest],
    class_found := fun _ => true,
    setup_outcome := fun _ => SetupOutcome.raises_mass "Setup blew up" }

def c3_config_one : ProviderConfig :=
  { instance_id := "fsA", domain := "filesystem_local", name := none, enabled := true }

theorem c3_amended_witness :
    (load_provider c3_bad_env empty_state c3_config_one).2 = none ∧
      load_pass c3_bad_env false empty_state (c3_config_one :: []) =
        load_pass c3_bad_env false
          (load_provider c3_bad_env empty_state c3_config_one).1 [] :=
  c3_amended_inner_errors_caught c3_bad_env false empty_state c3_config_one []
    c8_manifest rfl (Or.inl rfl) rfl (Or.inl rfl)

/-- Derived closed form of the store operations emitted by the sync_walk
loop (the emitted action for an item depends only on the previous checksum
map and the item itself, not on the accumulator); used to reason about
sync_walk by induction. -/
def walk_actions (prev_checksums : List (String × String)) :
    List FileSystemItem → List SyncAction
  | [] => []
  | item :: rest =>
    if !(is_supported_file item) then walk_actions prev_checksums rest
    else if some item.checksum == dict_get prev_checksums item.path then
      walk_actions prev_checksums rest
    else if TRACK_EXTENSIONS.contains ((file_ext item.name).getD "") then
      SyncAction.upsert_track item.path (dict_get prev_checksums item.path).isSome ::
        walk_actions prev_checksums rest
    else SyncAction.upsert_playlist item.path :: walk_actions prev_checksums rest

/-- Derived closed form of the checksum-dict threading of the sync_walk
loop: every supported item records its current checksum, skipped or not. -/
def walk_checksums : List FileSystemItem → List (String × String) → List (String × String)
  | [], cur_checksums => cur_checksums
  | item :: rest, cur_checksums =>
    if is_supported_file item then
      walk_checksums rest (dict_set cur_checksums item.path item.checksum)
    else walk_checksums rest cur_checksums

theorem dict_find_map_set (m : List (String × String)) (k v : String)
    (h : m.any (fun p => p.1 == k) = true) :
    (m.map (fun p => if p.1 == k then (k, v) else p)).find? (fun p => p.1 == k) =
      some (k, v) := by
  induction m with
  | nil => cases h
  | cons a m ih =>
    cases ha : (a.1 == k) with
    | true =>
      simp only [List.map_cons, ha, if_true]
      simp
    | false =>
      have h' : m.any (fun p => p.1 == k) = true := by
        simp only [List.any_cons, ha, Bool.false_or] at h
        exact h
      simp only [List.map_cons, ha, Bool.false_eq_true, if_false]
      rw [List.find?_cons_of_neg _ (by simp [ha])]
      exact ih h'

theorem dict_get_set_self (m : List (String × String)) (k v : String) :
    dict_get (dict_set m k v) k = some v := by
  unfold dict_set
  cases hmem : m.any (fun p => p.1 == k) with
  | true =>
    simp only [if_true]
    unfold dict_get
    rw [dict_find_map_set m k v hmem]
    rfl
  | false =>
    simp only [Bool.false_eq_true, if_false]
    unfold dict_get
    have hnone : m.find? (fun p => p.1 == k) = none := by
      rw [List.find?_eq_none]
      intro x hx
      have := List.any_eq_false.mp hmem x hx
      simpa using this
    rw [List.find?_append, hnone]
    simp

theorem dict_find_map_ne (m : List (String × String)) (k v k' : String) (hne : k' ≠ k) :
    (m.map (fun p => if p.1 == k then (k, v) else p)).find? (fun p => p.1 == k') =
      m.find? (fun p => p.1 == k') := by
  induction m with
  | nil => rfl
  | cons a m ih =>
    cases ha : (a.1 == k) with
    | true =>
      have ha' : a.1 = k := by simpa using ha
      simp only [List.map_cons, ha, if_true]
      rw [List.find?_cons_of_neg (p := fun p : String × String => p.1 == k') _
          (by simp [Ne.symm hne]),
        List.find?_cons_of_neg (p := fun p : String × String => p.1 == k') _
          (by simp [ha', Ne.symm hne])]
      exact ih
    | false =>
      simp only [List.map_cons, ha, Bool.false_eq_true, if_false]
      cases hak : (a.1 == k') with
      | true =>
        rw [List.find?_cons_of_pos (p := fun p : String × String => p.1 == k') _ hak,
          List.find?_cons_of_pos (p := fun p : String × String => p.1 == k') _ hak]
      | false =>
        rw [List.find?_cons_of_neg (p := fun p : String × String => p.1 == k') _
            (by simp [hak]),
          List.find?_cons_of_neg (p := fun p : String × String => p.1 == k') _
            (by simp [hak])]
        exact ih

theorem dict_get_set_ne (m : List (String × String)) (k v k' : String) (hne : k' ≠ k) :
    dict_get (dict_set m k v) k' = dict_get m k' := by
  unfold dict_set
  cases hmem : m.any (fun p => p.1 == k) with
  | true =>
    simp only [if_true]
    unfold dict_get
    rw [dict_find_map_ne m k v k' hne]
  | false =>
    simp only [Bool.false_eq_true, if_false]
    unfold dict_get
    rw [List.find?_append]
    cases hf : m.find? (fun p => p.1 == k') with
    | some q => rfl
    | none =>
      rw [List.find?_cons_of_neg (p := fun p : String × String => p.1 == k') _
          (by simp [Ne.symm hne])]
      rfl

theorem sync_walk_snd (prev : List (String × String)) (items : List FileSystemItem) :
    ∀ cur acts, (sync_walk prev items cur acts).2 = acts ++ walk_actions prev items := by
  induction items with
  | nil => intro cur acts; simp [sync_walk, walk_actions]
  | cons item rest ih =>
    intro cur acts
    cases h1 : is_supported_file item with
    | false =>
      simp only [sync_walk, walk_actions, h1, Bool.not_false, if_true]
      exact ih cur acts
    | true =>
      simp only [sync_walk, walk_actions, h1, Bool.not_true, Bool.false_eq_true, if_false]
      cases h2 : (some item.checksum == dict_get prev item.path) with
      | true =>
        simp only [h2, if_true]
        exact ih _ acts
      | false =>
        simp only [h2, Bool.false_eq_true, if_false]
        cases h3 : TRACK_EXTENSIONS.contains ((file_ext item.name).getD "") with
        | true =>
          simp only [h3, if_true]
          rw [ih _ _]
          simp
        | false =>
          simp only [h3, Bool.false_eq_true, if_false]
          rw [ih _ _]
          simp

theorem sync_walk_fst (prev : List (String × String)) (items : List FileSystemItem) :
    ∀ cur acts, (sync_walk prev items cur acts).1 = walk_checksums items cur := by
  induction items with
  | nil => intro cur acts; simp [sync_walk, walk_checksums]
  | cons item rest ih =>
    intro cur acts
    cases h1 : is_supported_file item with
    | false =>
      simp only [sync_walk, walk_checksums, h1, Bool.not_false, if_true,
        Bool.false_eq_true, if_false]
      exact ih cur acts
    | true =>
      simp only [sync_walk, walk_checksums, h1, Bool.not_true, Bool.false_eq_true,
        if_false, if_true]
      cases h2 : (some item.checksum == dict_get prev item.path) with
      | true =>
        simp only [h2, if_true]
        exact ih _ acts
      | false =>
        simp only [h2, Bool.false_eq_true, if_false]
        cases h3 : TRACK_EXTENSIONS.contains ((file_ext item.name).getD "") with
        | true =>
          simp only [h3, if_true]
          exact ih _ _
        | false =>
          simp only [h3, Bool.false_eq_true, if_false]
          exact ih _ _

theorem walk_actions_track_mem (prev : List (String × String))
    (items : List FileSystemItem) (path : String) (ow : Bool) :
    SyncAction.upsert_track path ow ∈ walk_actions prev items →
      ∃ item ∈ items, is_supported_file item = true ∧ item.path = path ∧
        ow = (dict_get prev path).isSome ∧
        dict_get prev item.path ≠ some item.checksum := by
  induction items with
  | nil => intro h; simp [walk_actions] at h
  | cons item rest ih =>
    intro h
    have lift : (∃ x ∈ rest, is_supported_file x = true ∧ x.path = path ∧
        ow = (dict_get prev path).isSome ∧ dict_get prev x.path ≠ some x.checksum) →
        ∃ x ∈ item :: rest, is_supported_file x = true ∧ x.path = path ∧
          ow = (dict_get prev path).isSome ∧ dict_get prev x.path ≠ some x.checksum := by
      rintro ⟨x, hx, hrest⟩
      exact ⟨x, List.mem_cons_of_mem item hx, hrest⟩
    cases h1 : is_supported_file item with
    | false =>
      rw [walk_actions, h1] at h
      exact lift (ih (by simpa using h))
    | true =>
      rw [walk_actions, h1] at h
      cases h2 : (some item.checksum == dict_get prev item.path) with
      | true =>
        rw [h2] at h
        exact lift (ih (by simpa using h))
      | false =>
        rw [h2] at h
        cases h3 : TRACK_EXTENSIONS.contains ((file_ext item.name).getD "") with
        | true =>
          rw [h3] at h
          simp only [Bool.not_true, Bool.false_eq_true, if_false, if_true,
            List.mem_cons] at h
          rcases h with heq | hmem
          · obtain ⟨hpath, how⟩ : path = item.path ∧ ow = (dict_get prev item.path).isSome := by
              cases heq
              exact ⟨rfl, rfl⟩
            refine ⟨item, List.mem_cons_self item rest, h1, hpath.symm, ?_, ?_⟩
            · rw [hpath]
              exact how
            · intro hc
              rw [← hc] at h2
              simp at h2
          · exact lift (ih hmem)
        | false =>
          rw [h3] at h
          simp only [Bool.not_true, Bool.false_eq_true, if_false, List.mem_cons] at h
          rcases h with heq | hmem
          · cases heq
          · exact lift (ih hmem)

theorem walk_actions_playlist_mem (prev : List (String × String))
    (items : List FileSystemItem) (path : String) :
    SyncAction.upsert_playlist path ∈ walk_actions prev items →
      ∃ item ∈ items, is_supported_file item = true ∧ item.path = path ∧
        dict_get prev item.path ≠ some item.checksum := by
  induction items with
  | nil => intro h; simp [walk_actions] at h
  | cons item rest ih =>
    intro h
    have lift : (∃ x ∈ rest, is_supported_file x = true ∧ x.path = path ∧
        dict_get prev x.path ≠ some x.checksum) →
        ∃ x ∈ item :: rest, is_supported_file x = true ∧ x.path = path ∧
          dict_get prev x.path ≠ some x.checksum := by
      rintro ⟨x, hx, hrest⟩
      exact ⟨x, List.mem_cons_of_mem item hx, hrest⟩
    cases h1 : is_supported_file item with
    | false =>
      rw [walk_actions, h1] at h
      exact lift (ih (by simpa using h))
    | true =>
      rw [walk_actions, h1] at h
      cases h2 : (some item.checksum == dict_get prev item.path) with
      | true =>
        rw [h2] at h
        exact lift (ih (by simpa using h))
      | false =>
        rw [h2] at h
        cases h3 : TRACK_EXTENSIONS.contains ((file_ext item.name).getD "") with
        | true =>
          rw [h3] at h
          simp only [Bool.not_true, Bool.false_eq_true, if_false, if_true,
            List.mem_cons] at h
          rcases h with heq | hmem
          · cases heq
          · exact lift (ih hmem)
        | false =>
          rw [h3] at h
          simp only [Bool.not_true, Bool.false_eq_true, if_false, List.mem_cons] at h
          rcases h with heq | hmem
          · obtain hpath : path = item.path := by
              cases heq
              rfl
            refine ⟨item, List.mem_cons_self item rest, h1, hpath.symm, ?_⟩
            intro hc
            rw [← hc] at h2
            simp at h2
          · exact lift (ih hmem)

theorem walk_actions_mem_of (prev : List (String × String))
    (items : List FileSystemItem) (item : FileSystemItem) (hmem : item ∈ items)
    (hsup : is_supported_file item = true)
    (hch : dict_get prev item.path ≠ some item.checksum) :
    (if TRACK_EXTENSIONS.contains ((file_ext item.name).getD "")
      then SyncAction.upsert_track item.path (dict_get prev item.path).isSome
      else SyncAction.upsert_playlist item.path) ∈ walk_actions prev items := by
  induction items with
  | nil => cases hmem
  | cons a rest ih =>
    rcases List.mem_cons.mp hmem with rfl | hmem'
    · have h2 : (some item.checksum == dict_get prev item.path) = false := by
        rw [beq_eq_false_iff_ne]
        intro he
        exact hch he.symm
      rw [walk_actions, hsup, h2]
      cases h3 : TRACK_EXTENSIONS.contains ((file_ext item.name).getD "") with
      | true =>
        simp only [h3, if_true, Bool.not_true, Bool.false_eq_true, if_false]
        exact List.mem_cons_self _ _
      | false =>
        simp only [h3, Bool.false_eq_true, if_false, Bool.not_true]
        exact List.mem_cons_self _ _
    · have hrec := ih hmem'
      cases h1 : is_supported_file a with
      | false =>
        rw [walk_actions, h1]
        simpa using hrec
      | true =>
        rw [walk_actions, h1]
        cases h2 : (some a.checksum == dict_get prev a.path) with
        | true =>
          simpa [h2] using hrec
        | false =>
          cases h3 : TRACK_EXTENSIONS.contains ((file_ext a.name).getD "") with
          | true =>
            simp only [h2, h3, Bool.not_true, Bool.false_eq_true, if_false, if_true]
            exact List.mem_cons_of_mem _ hrec
          | false =>
            simp only [h2, h3, Bool.not_true, Bool.false_eq_true, if_false]
            exact List.mem_cons_of_mem _ hrec

theorem mem_process_deletions (l : List String) (a : SyncAction)
    (h : a ∈ process_deletions l) :
    (∃ p, a = SyncAction.remove_track_mapping p) ∨
      (∃ p, a = SyncAction.remove_playlist_mapping p) := by
  obtain ⟨x, hx, hfx⟩ := List.mem_filterMap.mp h
  cases hext : file_ext x with
  | none => rw [hext] at hfx; cases hfx
  | some e =>
    rw [hext] at hfx
    cases h1 : SUPPORTED_EXTENSIONS.contains e with
    | false =>
      simp only [h1, Bool.not_false, if_true] at hfx
      cases hfx
    | true =>
      cases h2 : PLAYLIST_EXTENSIONS.contains e with
      | false =>
        simp only [h1, h2, Bool.not_true, Bool.false_eq_true, if_false,
          Option.some.injEq] at hfx
        exact Or.inl ⟨x, hfx.symm⟩
      | true =>
        simp only [h1, h2, Bool.not_true, Bool.false_eq_true, if_false, if_true,
          Option.some.injEq] at hfx
        exact Or.inr ⟨x, hfx.symm⟩

theorem walk_checksums_get_absent (items : List FileSystemItem) (p : String) :
    ∀ cur, (∀ item ∈ items, is_supported_file item = true → item.path ≠ p) →
      dict_get (walk_checksums items cur) p = dict_get cur p := by
  induction items with
  | nil => intro cur _; rfl
  | cons a rest ih =>
    intro cur h
    cases h1 : is_supported_file a with
    | false =>
      rw [walk_checksums, h1]
      simpa using ih cur (fun it hm hs => h it (List.mem_cons_of_mem a hm) hs)
    | true =>
      rw [walk_checksums, h1]
      simp only [if_true]
      rw [ih _ (fun it hm hs => h it (List.mem_cons_of_mem a hm) hs)]
      exact dict_get_set_ne cur a.path a.checksum p
        (fun he => h a (List.mem_cons_self a rest) h1 he.symm)

theorem walk_checksums_get_mem (items : List FileSystemItem) :
    ∀ item p cur,
      ((items.filter is_supported_file).map (fun it => it.path)).Nodup →
      item ∈ items → is_supported_file item = true → item.path = p →
      dict_get (walk_checksums items cur) p = some item.checksum := by
  induction items with
  | nil => intro item p cur _ hmem; cases hmem
  | cons a rest ih =>
    intro item p cur hnodup hmem hsup hpath
    rcases List.mem_cons.mp hmem with rfl | hmem'
    · rw [walk_checksums, hsup]
      simp only [if_true]
      have hnodup' := hnodup
      rw [List.filter_cons_of_pos hsup, List.map_cons, List.nodup_cons] at hnodup'
      have hno : ∀ it ∈ rest, is_supported_file it = true → it.path ≠ p := by
        intro it hit hsit heq
        exact hnodup'.1 (by
          rw [hpath, ← heq]
          exact List.mem_map_of_mem _ (List.mem_filter.mpr ⟨hit, hsit⟩))
      rw [walk_checksums_get_absent rest p _ hno, ← hpath]
      exact dict_get_set_self cur item.path item.checksum
    · cases h1 : is_supported_file a with
      | false =>
        rw [walk_checksums, h1]
        simp only [Bool.false_eq_true, if_false]
        have hnodup' : ((rest.filter is_supported_file).map (fun it => it.path)).Nodup := by
          rwa [List.filter_cons_of_neg (by simp [h1])] at hnodup
        exact ih item p cur hnodup' hmem' hsup hpath
      | true =>
        rw [walk_checksums, h1]
        simp only [if_true]
        have hnodup' : ((rest.filter is_supported_file).map (fun it => it.path)).Nodup := by
          rw [List.filter_cons_of_pos h1, List.map_cons, List.nodup_cons] at hnodup
          exact hnodup.2
        exact ih item p _ hnodup' hmem' hsup hpath

theorem sync_library_actions (prev : List (String × String)) (walk : List FileSystemItem) :
    (sync_library (some prev) walk).actions =
      walk_actions prev walk ++
        process_deletions ((prev.map (fun p => p.1)).filter
          (fun k => !((walk_checksums walk []).any (fun p => p.1 == k)))) := by
  simp only [sync_library, Option.getD_some, sync_walk_snd, sync_walk_fst,
    List.nil_append]

theorem sync_library_persisted (prev : List (String × String)) (walk : List FileSystemItem) :
    (sync_library (some prev) walk).persisted = walk_checksums walk [] := by
  simp only [sync_library, Option.getD_some, sync_walk_fst]

/-- C4 counterexample: with a previously known playlist path whose checksum
changed (prior map {p.m3u: 1}, walk {p.m3u: 2}), sync_library re-parses and
upserts the playlist, but its add_db_item call carries no
overwrite_existing flag — the upsert is a merge, not an overwrite, even
though the path was already known, refuting the claim's "overwriting
existing stored fields when the path was already known" for playlist
items. -/
theorem c4_counterexample :
    (sync_library (some [("p.m3u", "1")])
        [{ name := "p.m3u", path := "p.m3u", checksum := "2" }]).actions =
      [SyncAction.upsert_playlist "p.m3u"] ∧
      (dict_get [("p.m3u", "1")] "p.m3u").isSome = true := by
  decide

/-- C4 amended: for every prior path-to-checksum map and every current walk
listing with distinct supported paths, sync_library skips exactly those
supported paths whose current checksum equals the previously recorded one
and parses and upserts every other supported item — tracks are upserted
with overwrite_existing set exactly when the path was already known
(merging otherwise), while playlists are always upserted without the
overwrite flag (merge) — and the finally persisted checksum map holds
exactly the current walk's supported paths with their current checksums. -/
theorem c4_amended_sync (prev : List (String × String)) (walk : List FileSystemItem)
    (hnodup : ((walk.filter is_supported_file).map (fun item => item.path)).Nodup) :
    (∀ item ∈ walk, is_supported_file item = true →
      ((if TRACK_EXTENSIONS.contains ((file_ext item.name).getD "")
        then SyncAction.upsert_track item.path ((dict_get prev item.path).isSome)
        else SyncAction.upsert_playlist item.path) ∈ (sync_library (some prev) walk).actions
        ↔ dict_get prev item.path ≠ some item.checksum)) ∧
    (∀ path ow, SyncAction.upsert_track path ow ∈ (sync_library (some prev) walk).actions →
      ow = (dict_get prev path).isSome) ∧
    (∀ p c, dict_get (sync_library (some prev) walk).persisted p = some c ↔
      ∃ item ∈ walk, is_supported_file item = true ∧ item.path = p ∧ item.checksum = c) := by
  have hact := sync_library_actions prev walk
  have hper := sync_library_persisted prev walk
  refine ⟨?_, ?_, ?_⟩
  · intro item hmem hsup
    rw [hact]
    constructor
    · intro hin
      rcases List.mem_append.mp hin with hin | hin
      · by_cases h3 : TRACK_EXTENSIONS.contains ((file_ext item.name).getD "") = true
        · rw [if_pos h3] at hin
          obtain ⟨it, hit, hsit, hpit, _, hch⟩ :=
            walk_actions_track_mem prev walk item.path _ hin
          have heq : it = item := List.inj_on_of_nodup_map hnodup
            (List.mem_filter.mpr ⟨hit, hsit⟩) (List.mem_filter.mpr ⟨hmem, hsup⟩) hpit
          rwa [heq] at hch
        · rw [if_neg h3] at hin
          obtain ⟨it, hit, hsit, hpit, hch⟩ :=
            walk_actions_playlist_mem prev walk item.path hin
          have heq : it = item := List.inj_on_of_nodup_map hnodup
            (List.mem_filter.mpr ⟨hit, hsit⟩) (List.mem_filter.mpr ⟨hmem, hsup⟩) hpit
          rwa [heq] at hch
      · rcases mem_process_deletions _ _ hin with ⟨q, hq⟩ | ⟨q, hq⟩ <;>
          split at hq <;> cases hq
    · intro hch
      exact List.mem_append_left _ (walk_actions_mem_of prev walk item hmem hsup hch)
  · intro path ow hin
    rw [hact] at hin
    rcases List.mem_append.mp hin with hin | hin
    · obtain ⟨it, _, _, _, how, _⟩ := walk_actions_track_mem prev walk path ow hin
      exact how
    · rcases mem_process_deletions _ _ hin with ⟨q, hq⟩ | ⟨q, hq⟩ <;> cases hq
  · intro p c
    rw [hper]
    constructor
    · intro hg
      by_cases hex : ∃ item ∈ walk, is_supported_file item = true ∧ item.path = p
      · obtain ⟨item, hmem, hsup, hpath⟩ := hex
        rw [walk_checksums_get_mem walk item p [] hnodup hmem hsup hpath] at hg
        exact ⟨item, hmem, hsup, hpath, Option.some.inj hg⟩
      · have hno : ∀ it ∈ walk, is_supported_file it = true → it.path ≠ p := by
          intro it hm hs hpp
          exact hex ⟨it, hm, hs, hpp⟩
        rw [walk_checksums_get_absent walk p [] hno] at hg
        cases hg
    · rintro ⟨item, hmem, hsup, hpath, hcs⟩
      rw [walk_checksums_get_mem walk item p [] hnodup hmem hsup hpath, hcs]

def c4_prev : List (String × String) := [("a.mp3", "1"), ("b.mp3", "2")]

def c4_itemA : FileSystemItem := { name := "a.mp3", path := "a.mp3", checksum := "1" }

def c4_itemB : FileSystemItem := { name := "b.mp3", path := "b.mp3", checksum := "9" }

def c4_itemC : FileSystemItem := { name := "c.mp3", path := "c.mp3", checksum := "3" }

def c4_walk : List FileSystemItem := [c4_itemA, c4_itemB, c4_itemC]

theorem c4_amended_witness :
    (if TRACK_EXTENSIONS.contains ((file_ext c4_itemB.name).getD "")
      then SyncAction.upsert_track c4_itemB.path ((dict_get c4_prev c4_itemB.path).isSome)
      else SyncAction.upsert_playlist c4_itemB.path) ∈
        (sync_library (some c4_prev) c4_walk).actions ∧
      dict_get (sync_library (some c4_prev) c4_walk).persisted "c.mp3" = some "3" := by
  have h := c4_amended_sync c4_prev c4_walk (by decide)
  exact ⟨(h.1 c4_itemB (by decide) (by decide)).mpr (by decide),
    (h.2.2 "c.mp3" "3").mpr ⟨c4_itemC, by decide, by decide, rfl, rfl⟩⟩

end MusicAssistant
